import Mathlib

/-!
Verification of the xDS ADS client (plugin/traffic/xds/client.go): a shallow
embedding of the resource store, the discovery request builders and the
receive loop, with theorems settling the specification claims.
-/

namespace Xds

/-- Resource type URL for cluster discovery (CDS), the source constant cdsURL. -/
def cdsURL : String := "type.googleapis.com/envoy.api.v2.Cluster"

/-- Resource type URL for endpoint discovery (EDS), the source constant edsURL. -/
def edsURL : String := "type.googleapis.com/envoy.api.v2.ClusterLoadAssignment"

/-- An endpoint assignment payload (xdspb.ClusterLoadAssignment): the cluster it
names and its endpoints. The client treats it as opaque, so only equality matters. -/
structure ClusterLoadAssignment where
  clusterName : String
  endpoints : List String
deriving DecidableEq, Repr

/-- A resource inside a DiscoveryResponse, after the any-unpacking step of the
receive loop: a Cluster message, a ClusterLoadAssignment message, or a payload
that fails ptypes.UnmarshalAny. -/
inductive Resource where
  | cluster (name : String)
  | loadAssignment (cla : ClusterLoadAssignment)
  | malformed
deriving DecidableEq, Repr

/-- The CDS branch of the receive loop unpacks a resource and type-asserts it to
a Cluster; anything else is skipped (the two continue statements). -/
def unpackCluster : Resource → Option String
  | .cluster name => some name
  | _ => none

/-- The Go map cla of the assignment struct: cluster name to possibly-nil
assignment pointer, as an association list with at most one binding per key. -/
abbrev CLAMap := List (String × Option ClusterLoadAssignment)

/-- Go map read m[k]: the bound value when the key is present. -/
def mapLookup : CLAMap → String → Option (Option ClusterLoadAssignment)
  | [], _ => none
  | (k2, v2) :: rest, k => if k2 = k then some v2 else mapLookup rest k

/-- Go map write m[k] = v: replaces the existing binding or appends a new one. -/
def mapInsert : CLAMap → String → Option ClusterLoadAssignment → CLAMap
  | [], k, v => [(k, v)]
  | (k2, v2) :: rest, k, v =>
      if k2 = k then (k, v) :: rest else (k2, v2) :: mapInsert rest k v

/-- The assignment struct of the source: the cluster-name-keyed store. The
version field is declared in the source but never read or written. -/
structure Assignment where
  cla : CLAMap
  version : Int := 0
deriving DecidableEq, Repr

/-- assignment.SetClusterLoadAssignment: if the cluster is unknown, record the
given (possibly nil) assignment; if it is known and the new assignment is nil,
return leaving the store unchanged; otherwise overwrite the assignment. -/
def Assignment.SetClusterLoadAssignment (a : Assignment) (cluster : String)
    (cla : Option ClusterLoadAssignment) : Assignment :=
  match mapLookup a.cla cluster with
  | none => { a with cla := mapInsert a.cla cluster cla }
  | some _ =>
      match cla with
      | none => a
      | some c => { a with cla := mapInsert a.cla cluster (some c) }

/-- assignment.ClusterLoadAssignment: the lookup as written in the source, which
returns nil for every cluster name. -/
def Assignment.ClusterLoadAssignment (_a : Assignment) (_cluster : String) :
    Option ClusterLoadAssignment :=
  none

/-- assignment.Clusters: the keys of the store map. -/
def Assignment.Clusters (a : Assignment) : List String :=
  a.cla.map Prod.fst

/-- corepb.Node: the node identity sent in every discovery request. -/
structure Node where
  id : String
deriving DecidableEq, Repr

/-- The client: its node identity and the assignment store. Transport handles
(grpc connection, context, cancel) are external collaborators. -/
structure Client where
  addr : String
  node : Node
  assignments : Assignment
deriving DecidableEq, Repr

/-- New: builds a client for addr. The source sets the node id to the literal
"test-id" and never reads the node argument, and starts with an empty map. -/
def New (addr node : String) : Client :=
  { addr := addr, node := { id := "test-id" }, assignments := { cla := [] } }

/-- xdspb.DiscoveryRequest, with the fields the client fills in. -/
structure DiscoveryRequest where
  node : Node
  typeUrl : String
  resourceNames : List String
  versionInfo : String
  responseNonce : String
deriving DecidableEq, Repr

/-- xdspb.DiscoveryResponse, with the fields the client reads. -/
structure DiscoveryResponse where
  typeUrl : String
  resources : List Resource
  versionInfo : String
  nonce : String
deriving DecidableEq, Repr

/-- Client.ClusterDiscovery: the CDS request it sends on the stream. -/
def Client.ClusterDiscovery (c : Client) (version nonce : String)
    (clusters : List String) : DiscoveryRequest :=
  { node := c.node, typeUrl := cdsURL, resourceNames := clusters,
    versionInfo := version, responseNonce := nonce }

/-- Client.EndpointDiscovery: the EDS request it sends on the stream. -/
def Client.EndpointDiscovery (c : Client) (version nonce : String)
    (clusters : List String) : DiscoveryRequest :=
  { node := c.node, typeUrl := edsURL, resourceNames := clusters,
    versionInfo := version, responseNonce := nonce }

/-- The per-resource loop of the CDS branch: each resource that unpacks to a
Cluster is recorded with a nil assignment; unpack failures are skipped. -/
def processClusterResources : Assignment → List Resource → Assignment
  | a, [] => a
  | a, r :: rs =>
      match unpackCluster r with
      | none => processClusterResources a rs
      | some name => processClusterResources (a.SetClusterLoadAssignment name none) rs

/-- One iteration body of Client.Receive after a successful Recv: the switch on
the response type URL. The CDS case updates the store and emits the CDS ACK
followed by the EDS discovery request; the EDS case only prints; the default
case logs a warning and continues. Returns the new client state and the
requests handed to stream.Send, in order. -/
def Client.processResponse (c : Client) (resp : DiscoveryResponse) :
    Client × List DiscoveryRequest :=
  if resp.typeUrl = cdsURL then
    let c2 : Client :=
      { c with assignments := processClusterResources c.assignments resp.resources }
    (c2, [c2.ClusterDiscovery resp.versionInfo resp.nonce c2.assignments.Clusters,
          c2.EndpointDiscovery "" "" c2.assignments.Clusters])
  else if resp.typeUrl = edsURL then
    (c, [])
  else
    (c, [])

/-- One outcome of stream.Recv: a response, or a stream error. -/
inductive RecvEvent where
  | response (r : DiscoveryResponse)
  | failure (e : String)
deriving DecidableEq, Repr

/-- A stream.Send attempt and whether it succeeded. The source only logs a
warning on failure, so success feeds back into nothing. -/
structure SendAttempt where
  req : DiscoveryRequest
  ok : Bool
deriving DecidableEq, Repr

/-- Client.Receive over a finite prefix of the stream: processes responses in
order, attempting every emitted request (sendOk says which sends succeed), and
returns the final state, the send attempts, and the error Recv returned, if
any. A Recv failure returns immediately; send failures do not stop the loop. -/
def Client.Receive (sendOk : DiscoveryRequest → Bool) :
    Client → List RecvEvent → Client × List SendAttempt × Option String
  | c, [] => (c, [], none)
  | c, .failure e :: _ => (c, [], some e)
  | c, .response r :: rest =>
      let step := c.processResponse r
      let attempts := step.2.map (fun q => { req := q, ok := sendOk q })
      let out := Client.Receive sendOk step.1 rest
      (out.1, attempts ++ out.2.1, out.2.2)

/-- An endpoint assignment for cluster a, as in the spec scenario. -/
def exampleClaA : ClusterLoadAssignment :=
  { clusterName := "a", endpoints := ["1.2.3.4:80"] }

/-- A second, different assignment for cluster a. -/
def exampleClaB : ClusterLoadAssignment :=
  { clusterName := "a", endpoints := ["5.6.7.8:80"] }

/-- A store already holding a non-empty assignment for cluster a. -/
def storeA : Assignment := { cla := [("a", some exampleClaA)] }

/-- A CDS response carrying clusters a and b plus one malformed resource. -/
def respAB : DiscoveryResponse :=
  { typeUrl := cdsURL, resources := [.cluster "a", .malformed, .cluster "b"],
    versionInfo := "v1", nonce := "n1" }

/-- A CDS response repeating clusters b and a in the other order. -/
def respBA : DiscoveryResponse :=
  { typeUrl := cdsURL, resources := [.cluster "b", .cluster "a", .cluster "a"],
    versionInfo := "v2", nonce := "n2" }

/-- An EDS response carrying one well-formed assignment for cluster a. -/
def edsResp : DiscoveryResponse :=
  { typeUrl := edsURL, resources := [.loadAssignment exampleClaA],
    versionInfo := "v1", nonce := "n1" }

/-- A response of a type the dispatch switch does not recognize. -/
def bogusResp : DiscoveryResponse :=
  { typeUrl := "type.googleapis.com/envoy.api.v2.Listener",
    resources := [.cluster "a"], versionInfo := "v9", nonce := "n9" }

theorem mapLookup_insert_self (m : CLAMap) (k : String)
    (v : Option ClusterLoadAssignment) :
    mapLookup (mapInsert m k v) k = some v := by
  induction m with
  | nil => simp [mapInsert, mapLookup]
  | cons p rest ih =>
    obtain ⟨k2, v2⟩ := p
    by_cases h : k2 = k
    · simp [mapInsert, h, mapLookup]
    · simp [mapInsert, h, mapLookup, ih]

theorem mem_keys_mapInsert (m : CLAMap) (k s : String)
    (v : Option ClusterLoadAssignment) :
    s ∈ (mapInsert m k v).map Prod.fst ↔ s = k ∨ s ∈ m.map Prod.fst := by
  induction m with
  | nil => simp [mapInsert]
  | cons p rest ih =>
    obtain ⟨k2, v2⟩ := p
    by_cases h : k2 = k
    · subst h; simp [mapInsert]
    · simp [mapInsert, h, ih]
      tauto

theorem mem_keys_of_mapLookup (m : CLAMap) (k : String)
    (v : Option ClusterLoadAssignment) (h : mapLookup m k = some v) :
    k ∈ m.map Prod.fst := by
  induction m with
  | nil => simp [mapLookup] at h
  | cons p rest ih =>
    obtain ⟨k2, v2⟩ := p
    by_cases hk : k2 = k
    · simp [hk]
    · simp [mapLookup, hk] at h
      simp [ih h]

theorem mem_Clusters_set (a : Assignment) (cluster s : String)
    (v : Option ClusterLoadAssignment) :
    s ∈ (a.SetClusterLoadAssignment cluster v).Clusters ↔
      s = cluster ∨ s ∈ a.Clusters := by
  unfold Assignment.SetClusterLoadAssignment Assignment.Clusters
  cases h : mapLookup a.cla cluster with
  | none => simpa using mem_keys_mapInsert a.cla cluster s v
  | some old =>
    cases v with
    | none =>
      simp only
      constructor
      · exact Or.inr
      · rintro (rfl | hs)
        · exact mem_keys_of_mapLookup a.cla s old h
        · exact hs
    | some c0 => simpa using mem_keys_mapInsert a.cla cluster s (some c0)

theorem mem_Clusters_processClusterResources (rs : List Resource)
    (a : Assignment) (s : String) :
    s ∈ (processClusterResources a rs).Clusters ↔
      s ∈ a.Clusters ∨ s ∈ rs.filterMap unpackCluster := by
  induction rs generalizing a with
  | nil => simp [processClusterResources]
  | cons r rest ih =>
    cases h : unpackCluster r with
    | none => simp [processClusterResources, h, ih, List.filterMap_cons]
    | some name =>
      simp only [processClusterResources, h, ih, List.filterMap_cons,
        mem_Clusters_set, List.mem_cons]
      tauto

theorem processClusterResources_skip (a : Assignment) (xs ys : List Resource)
    (r : Resource) (h : unpackCluster r = none) :
    processClusterResources a (xs ++ r :: ys) = processClusterResources a (xs ++ ys) := by
  induction xs generalizing a with
  | nil => simp [processClusterResources, h]
  | cons x xs ih =>
    cases hx : unpackCluster x <;> simp [processClusterResources, hx, ih]

theorem Receive_cds_mem (sendOk : DiscoveryRequest → Bool)
    (resps : List DiscoveryResponse) (c : Client)
    (h : ∀ r ∈ resps, r.typeUrl = cdsURL) (s : String) :
    s ∈ (Client.Receive sendOk c (resps.map RecvEvent.response)).1.assignments.Clusters ↔
      s ∈ c.assignments.Clusters ∨
        ∃ r ∈ resps, s ∈ r.resources.filterMap unpackCluster := by
  induction resps generalizing c with
  | nil => simp [Client.Receive]
  | cons r rest ih =>
    have hr : r.typeUrl = cdsURL := h r (by simp)
    have hrest : ∀ x ∈ rest, x.typeUrl = cdsURL := fun x hx => h x (by simp [hx])
    simp only [List.map_cons, Client.Receive, Client.processResponse, hr, if_pos,
      ih _ hrest, mem_Clusters_processClusterResources, List.mem_cons]
    constructor
    · rintro ((hs | hs) | ⟨x, hx, hmem⟩)
      · exact Or.inl hs
      · exact Or.inr ⟨r, Or.inl rfl, hs⟩
      · exact Or.inr ⟨x, Or.inr hx, hmem⟩
    · rintro (hs | ⟨x, (rfl | hx), hmem⟩)
      · exact Or.inl (Or.inl hs)
      · exact Or.inl (Or.inr hmem)
      · exact Or.inr ⟨x, hx, hmem⟩

theorem Receive_sendOk_agnostic (f g : DiscoveryRequest → Bool)
    (evs : List RecvEvent) (c : Client) :
    (Client.Receive f c evs).1 = (Client.Receive g c evs).1
    ∧ (Client.Receive f c evs).2.1.map SendAttempt.req
        = (Client.Receive g c evs).2.1.map SendAttempt.req
    ∧ (Client.Receive f c evs).2.2 = (Client.Receive g c evs).2.2 := by
  induction evs generalizing c with
  | nil => simp [Client.Receive]
  | cons ev rest ih =>
    cases ev with
    | failure e => simp [Client.Receive]
    | response r =>
      obtain ⟨h1, h2, h3⟩ := ih (c.processResponse r).1
      simp [Client.Receive, h1, h2, h3, List.map_map, Function.comp_def]

/-- Claim C1: lookupAssignment should return a recorded non-empty assignment for
its cluster, but the source function returns nil unconditionally. After the
assignment for cluster a is recorded (and demonstrably present in the store
map), ClusterLoadAssignment of a is still none, refuting the claimed behavior. -/
theorem C1_lookup_always_not_found :
    ((({ cla := [] } : Assignment).SetClusterLoadAssignment "a"
        (some exampleClaA)).ClusterLoadAssignment "a" = none)
    ∧ mapLookup (({ cla := [] } : Assignment).SetClusterLoadAssignment "a"
        (some exampleClaA)).cla "a" = some (some exampleClaA) := by
  exact ⟨rfl, by decide⟩

/-- Claim C2: starting from a fresh client, after the receive loop processes any
sequence of Cluster-type responses, the cluster-name set of the store is
exactly the union of all cluster names successfully unpacked from those
responses, regardless of duplicates and ordering. -/
theorem C2_clusters_equal_union_of_unpacked (addr nodeArg : String)
    (sendOk : DiscoveryRequest → Bool) (resps : List DiscoveryResponse)
    (h : ∀ r ∈ resps, r.typeUrl = cdsURL) (s : String) :
    s ∈ (Client.Receive sendOk (New addr nodeArg)
          (resps.map RecvEvent.response)).1.assignments.Clusters ↔
      ∃ r ∈ resps, s ∈ r.resources.filterMap unpackCluster := by
  rw [Receive_cds_mem sendOk resps _ h s]
  simp [New, Assignment.Clusters]

/-- Witness for C2 on two concrete responses with duplicated names in differing
order: cluster a is listed exactly when some response unpacked it. -/
theorem C2_witness :
    (∀ r ∈ [respAB, respBA], r.typeUrl = cdsURL)
    ∧ ("a" ∈ (Client.Receive (fun _ => true) (New "addr" "node")
          ([respAB, respBA].map RecvEvent.response)).1.assignments.Clusters ↔
        ∃ r ∈ [respAB, respBA], "a" ∈ r.resources.filterMap unpackCluster) := by
  have hcds : ∀ r ∈ [respAB, respBA], r.typeUrl = cdsURL := by decide
  exact ⟨hcds,
    C2_clusters_equal_union_of_unpacked "addr" "node" (fun _ => true)
      [respAB, respBA] hcds "a"⟩

/-- Claim C3: SetClusterLoadAssignment records any assignment for a new cluster,
preserves the store untouched when a known cluster gets a nil assignment, and
overwrites with any non-nil assignment. -/
theorem C3_set_semantics (a : Assignment) (cluster : String)
    (cla : Option ClusterLoadAssignment) :
    (mapLookup a.cla cluster = none →
        mapLookup (a.SetClusterLoadAssignment cluster cla).cla cluster = some cla)
    ∧ (∀ old, mapLookup a.cla cluster = some old →
        a.SetClusterLoadAssignment cluster none = a)
    ∧ (∀ old c0, mapLookup a.cla cluster = some old →
        mapLookup (a.SetClusterLoadAssignment cluster (some c0)).cla cluster
          = some (some c0)) := by
  refine ⟨?_, ?_, ?_⟩
  · intro h
    simp [Assignment.SetClusterLoadAssignment, h, mapLookup_insert_self]
  · intro old h
    simp [Assignment.SetClusterLoadAssignment, h]
  · intro old c0 h
    simp [Assignment.SetClusterLoadAssignment, h, mapLookup_insert_self]

/-- Witness for C3: the three branches at concrete stores — recording a new
cluster, a nil signal leaving a known cluster's assignment intact, and a
non-nil assignment overwriting the old one. -/
theorem C3_witness :
    (mapLookup ({ cla := [] } : Assignment).cla "a" = none ∧
      mapLookup (({ cla := [] } : Assignment).SetClusterLoadAssignment "a"
        (some exampleClaA)).cla "a" = some (some exampleClaA))
    ∧ (mapLookup storeA.cla "a" = some (some exampleClaA) ∧
      storeA.SetClusterLoadAssignment "a" none = storeA)
    ∧ mapLookup (storeA.SetClusterLoadAssignment "a"
        (some exampleClaB)).cla "a" = some (some exampleClaB) := by
  refine ⟨⟨by decide, ?_⟩, ⟨by decide, ?_⟩, ?_⟩
  · exact (C3_set_semantics { cla := [] } "a" (some exampleClaA)).1 (by decide)
  · exact (C3_set_semantics storeA "a" none).2.1 (some exampleClaA) (by decide)
  · exact (C3_set_semantics storeA "a" (some exampleClaB)).2.2
      (some exampleClaA) exampleClaB (by decide)

/-- Claim C4: an Endpoint-type response should persist each unpacked assignment
and be acknowledged, but the source EDS branch only prints a debug line: on a
well-formed EDS response the client state is unchanged and no request is sent. -/
theorem C4_eds_response_ignored :
    (New "addr" "node").processResponse edsResp = (New "addr" "node", []) := by
  decide

/-- Claim C5: processing a Cluster-type response emits exactly two requests in
order: a CDS ACK echoing the response's version and nonce and naming the full
current cluster set, then an EDS request naming that same cluster set. -/
theorem C5_cds_emits_ack_then_eds (c : Client) (resp : DiscoveryResponse)
    (h : resp.typeUrl = cdsURL) :
    (c.processResponse resp).2 =
      [{ node := c.node, typeUrl := cdsURL,
         resourceNames := (c.processResponse resp).1.assignments.Clusters,
         versionInfo := resp.versionInfo, responseNonce := resp.nonce },
       { node := c.node, typeUrl := edsURL,
         resourceNames := (c.processResponse resp).1.assignments.Clusters,
         versionInfo := "", responseNonce := "" }] := by
  simp [Client.processResponse, h, Client.ClusterDiscovery, Client.EndpointDiscovery]

/-- Witness for C5 on a concrete client and CDS response. -/
theorem C5_witness :
    respAB.typeUrl = cdsURL
    ∧ ((New "addr" "node").processResponse respAB).2 =
      [{ node := (New "addr" "node").node, typeUrl := cdsURL,
         resourceNames :=
           ((New "addr" "node").processResponse respAB).1.assignments.Clusters,
         versionInfo := respAB.versionInfo, responseNonce := respAB.nonce },
       { node := (New "addr" "node").node, typeUrl := edsURL,
         resourceNames :=
           ((New "addr" "node").processResponse respAB).1.assignments.Clusters,
         versionInfo := "", responseNonce := "" }] := by
  exact ⟨by decide, C5_cds_emits_ack_then_eds (New "addr" "node") respAB (by decide)⟩

/-- Claim C6: in a Cluster-type response, exactly the successfully unpacked
cluster names are recorded; a malformed resource anywhere in the batch is
skipped with no effect on the outcome, and the rest of the batch is processed. -/
theorem C6_malformed_resources_skipped (c : Client) (resp : DiscoveryResponse)
    (h : resp.typeUrl = cdsURL) :
    (∀ s, s ∈ (c.processResponse resp).1.assignments.Clusters ↔
        s ∈ c.assignments.Clusters ∨ s ∈ resp.resources.filterMap unpackCluster)
    ∧ (∀ xs ys, resp.resources = xs ++ Resource.malformed :: ys →
        c.processResponse resp =
          c.processResponse { resp with resources := xs ++ ys }) := by
  constructor
  · intro s
    simp [Client.processResponse, h, mem_Clusters_processClusterResources]
  · intro xs ys hr
    have hskip : processClusterResources c.assignments (xs ++ Resource.malformed :: ys)
        = processClusterResources c.assignments (xs ++ ys) :=
      processClusterResources_skip c.assignments xs ys Resource.malformed rfl
    simp [Client.processResponse, h, hr, hskip]

/-- Witness for C6: the response with clusters a, b and one malformed entry in
the middle records both names, and dropping the malformed entry changes nothing. -/
theorem C6_witness :
    respAB.typeUrl = cdsURL
    ∧ ("b" ∈ ((New "addr" "node").processResponse respAB).1.assignments.Clusters ↔
        "b" ∈ (New "addr" "node").assignments.Clusters ∨
          "b" ∈ respAB.resources.filterMap unpackCluster)
    ∧ (New "addr" "node").processResponse respAB =
        (New "addr" "node").processResponse
          { respAB with resources := [.cluster "a"] ++ [.cluster "b"] } := by
  refine ⟨by decide, ?_, ?_⟩
  · exact (C6_malformed_resources_skipped (New "addr" "node") respAB (by decide)).1 "b"
  · exact (C6_malformed_resources_skipped (New "addr" "node") respAB (by decide)).2
      [.cluster "a"] [.cluster "b"] (by decide)

/-- Claim C7: a response whose type URL is neither the CDS nor the EDS URL
leaves the client (and its store) unchanged, emits no request, and the receive
loop carries on exactly as if the response had not arrived. -/
theorem C7_unknown_type_no_effect (sendOk : DiscoveryRequest → Bool) (c : Client)
    (resp : DiscoveryResponse) (rest : List RecvEvent)
    (h1 : resp.typeUrl ≠ cdsURL) (h2 : resp.typeUrl ≠ edsURL) :
    c.processResponse resp = (c, [])
    ∧ Client.Receive sendOk c (RecvEvent.response resp :: rest) =
        Client.Receive sendOk c rest := by
  have hp : c.processResponse resp = (c, []) := by
    simp [Client.processResponse, h1, h2]
  refine ⟨hp, ?_⟩
  simp [Client.Receive, hp]

/-- Witness for C7 at a concrete unknown-type response followed by a CDS
response: processing it is a no-op and the loop continues. -/
theorem C7_witness :
    bogusResp.typeUrl ≠ cdsURL ∧ bogusResp.typeUrl ≠ edsURL
    ∧ (New "addr" "node").processResponse bogusResp = (New "addr" "node", [])
    ∧ Client.Receive (fun _ => true) (New "addr" "node")
        (RecvEvent.response bogusResp :: [RecvEvent.response respAB]) =
      Client.Receive (fun _ => true) (New "addr" "node")
        [RecvEvent.response respAB] := by
  have h := C7_unknown_type_no_effect (fun _ => true) (New "addr" "node")
    bogusResp [RecvEvent.response respAB] (by decide) (by decide)
  exact ⟨by decide, by decide, h.1, h.2⟩

/-- Claim C8: every request should carry the node identifier supplied to New,
but the source hardcodes the node id "test-id" and ignores the argument:
constructing with "my-node" yields requests carrying "test-id". -/
theorem C8_node_id_hardcoded :
    (New "addr" "my-node").node = { id := "test-id" }
    ∧ ((New "addr" "my-node").ClusterDiscovery "v" "n" []).node = { id := "test-id" }
    ∧ ((New "addr" "my-node").EndpointDiscovery "v" "n" []).node = { id := "test-id" }
    ∧ ({ id := "test-id" } : Node) ≠ { id := "my-node" } := by
  exact ⟨rfl, rfl, rfl, by decide⟩

/-- Claim C9: the receive loop's final state, the requests it attempts to send
and the error it returns are identical under any two send-success oracles, so a
send failure never terminates or alters the loop; and a Recv failure terminates
the loop at once, with no state change or send attempt, returning that error. -/
theorem C9_send_nonfatal_recv_fatal (f g : DiscoveryRequest → Bool)
    (c : Client) (evs : List RecvEvent) (e : String) (rest : List RecvEvent) :
    ((Client.Receive f c evs).1 = (Client.Receive g c evs).1
      ∧ (Client.Receive f c evs).2.1.map SendAttempt.req
          = (Client.Receive g c evs).2.1.map SendAttempt.req
      ∧ (Client.Receive f c evs).2.2 = (Client.Receive g c evs).2.2)
    ∧ Client.Receive f c (RecvEvent.failure e :: rest) = (c, [], some e) := by
  exact ⟨Receive_sendOk_agnostic f g evs c, rfl⟩

end Xds
